import Mathlib

/-!
Shallow embedding of the playback-synchronization core of the
listen-together repository, and theorems checking its specification.

Sources embedded:
* `src/src/hooks/useListenerSync.ts` — the listener reconciler
  (`syncPlayback`, `handleHostUpdate`, `SYNC_TOLERANCE_MS`).
* `src/unnamed/part_002` (an earlier `useListenerSync` variant) —
  the latency-compensation math of `syncToHost`
  (`timeSinceUpdate`, `expectedPosition`, `clampedPosition`).
* `src/src/hooks/useInterpolatedProgress.ts` — the display interpolation.
* `src/server.js` — connection / `request_sync` / disconnect handlers and
  `pollHostPlayback`.
* `src/src/hooks/useHostSync.ts` — the host client's `handleSyncRequest`.

Machine integers are modelled as `Int` (JavaScript numbers used only for
millisecond arithmetic here, far from 2^53). Asynchronous fetch calls are
modelled as emitted command values; a fetch's success is an explicit
boolean parameter where the code branches on `response.ok`.
-/

namespace ListenTogether

/-- The `HostUpdate` record built by `server.js`, `useHostSync.ts` and
consumed by `useListenerSync.ts` (see `HostUpdate` in the repository's
type declarations): track identity, play flag, position, duration and the
wall-clock `timestamp` at which `progressMs` was captured.  Nullable
string fields are `Option String`. -/
structure HostUpdate where
  trackUri : Option String
  trackName : Option String
  artistName : Option String
  albumName : Option String
  albumImageUrl : Option String
  isPlaying : Bool
  progressMs : Int
  durationMs : Int
  timestamp : Int
deriving Repr, DecidableEq

/-- A playback command issued by the listener reconciler: each value is one
fetch of `/api/spotify/play` in `syncPlayback` — either the pause action or
the play action carrying a track URI and a start position. -/
inductive SpotifyCmd where
  | pause
  | play (trackUri : String) (positionMs : Int)
deriving Repr, DecidableEq

/-- The context captured by the `useListenerSync` hook: the `isListener`
flag, the Spotify `deviceId`, the `accessToken`, and the user-toggleable
`isSyncEnabled` state. -/
structure ListenerCtx where
  isListener : Bool
  deviceId : Option String
  accessToken : Option String
  isSyncEnabled : Bool
deriving Repr, DecidableEq

/-- The two mutable refs of `useListenerSync.ts`: `lastSyncedTrack`
(initially `null`) and `lastSyncedPosition` (initially `0`). -/
structure SyncRefs where
  lastSyncedTrack : Option String
  lastSyncedPosition : Int
deriving Repr, DecidableEq

/-- `SYNC_TOLERANCE_MS` from `useListenerSync.ts` line 27: tolerance for
position sync, 5 seconds. -/
def SYNC_TOLERANCE_MS : Int := 5000

/-- The body of `syncPlayback` from `useListenerSync.ts` lines 48–104.
Returns the updated refs and the list of playback commands issued.

Faithful transcription: the guard returns early unless
`isListener && deviceId && accessToken && isSyncEnabled`; then
`trackChanged = lastSyncedTrack !== update.trackUri` and
`positionDrift = |update.progressMs - lastSyncedPosition|` with
`needsPositionSync = positionDrift > SYNC_TOLERANCE_MS`; a non-playing
update issues the pause action and records `lastSyncedTrack`; a playing
update with a track URI issues the play fetch at the raw `update.progressMs`
when `trackChanged || needsPositionSync`, and updates both refs only when
the response is ok (`playOk`).  (`update.progressMs || 0` is the identity
here since `progressMs` is always a number in the model.) -/
def syncPlayback (ctx : ListenerCtx) (refs : SyncRefs) (update : HostUpdate)
    (playOk : Bool) : SyncRefs × List SpotifyCmd :=
  if ctx.isListener = false ∨ ctx.deviceId = none ∨ ctx.accessToken = none ∨
      ctx.isSyncEnabled = false then
    (refs, [])
  else if update.isPlaying = false then
    (⟨update.trackUri, refs.lastSyncedPosition⟩, [SpotifyCmd.pause])
  else
    match update.trackUri with
    | none => (refs, [])
    | some uri =>
      if refs.lastSyncedTrack ≠ update.trackUri ∨
          |update.progressMs - refs.lastSyncedPosition| > SYNC_TOLERANCE_MS then
        if playOk then
          (⟨some uri, update.progressMs⟩, [SpotifyCmd.play uri update.progressMs])
        else
          (refs, [SpotifyCmd.play uri update.progressMs])
      else
        (refs, [])

/-- Listener-side state visible to the claims: the reconciler refs plus the
`hostState` display state set by `handleHostUpdate` (the further display
fields `lastSyncTime`, `error`, `syncStatus` are not consulted by any
claim and are omitted). -/
structure ListenerState where
  refs : SyncRefs
  hostState : Option HostUpdate
deriving Repr, DecidableEq

/-- `handleHostUpdate` from `useListenerSync.ts` lines 117–132: stores the
incoming update as display state unconditionally, then calls `syncPlayback`
when `isListener && deviceId && accessToken`. -/
def handleHostUpdate (ctx : ListenerCtx) (st : ListenerState) (update : HostUpdate)
    (playOk : Bool) : ListenerState × List SpotifyCmd :=
  if ctx.isListener = true ∧ ctx.deviceId ≠ none ∧ ctx.accessToken ≠ none then
    (⟨(syncPlayback ctx st.refs update playOk).1, some update⟩,
      (syncPlayback ctx st.refs update playOk).2)
  else
    (⟨st.refs, some update⟩, [])

/-- A run of the listener reconciler over a stream of incoming updates,
each processed by `handleHostUpdate`; every play fetch is assumed to
succeed (`playOk = true`).  Returns the final state and the concatenation
of all commands issued. -/
def processUpdates (ctx : ListenerCtx) :
    ListenerState → List HostUpdate → ListenerState × List SpotifyCmd
  | st, [] => (st, [])
  | st, u :: rest =>
    ((processUpdates ctx (handleHostUpdate ctx st u true).1 rest).1,
      (handleHostUpdate ctx st u true).2 ++
        (processUpdates ctx (handleHostUpdate ctx st u true).1 rest).2)

/-- `timeSinceUpdate` from the `syncToHost` callback in `src/unnamed/part_002`
lines 50–52: wall-clock now minus the update's capture timestamp. -/
def timeSinceUpdate (update : HostUpdate) (nowMs : Int) : Int :=
  nowMs - update.timestamp

/-- `expectedPosition` from `syncToHost` in `src/unnamed/part_002`: the
position advanced by the elapsed time when playing, the raw position when
paused. -/
def expectedPosition (update : HostUpdate) (nowMs : Int) : Int :=
  if update.isPlaying then update.progressMs + timeSinceUpdate update nowMs
  else update.progressMs

/-- `clampedPosition` from `syncToHost` in `src/unnamed/part_002`:
`Math.min(expectedPosition, update.durationMs)`. -/
def clampedPosition (update : HostUpdate) (nowMs : Int) : Int :=
  min (expectedPosition update nowMs) update.durationMs

/-- The `positionMs` actually sent by the play branch of `syncToHost` in
`src/unnamed/part_002`: `Math.max(0, clampedPosition)`. -/
def playPositionSent (update : HostUpdate) (nowMs : Int) : Int :=
  max 0 (clampedPosition update nowMs)

/-- The estimate computed by `useInterpolatedProgress.ts` lines 35–51: when
playing with a positive duration, `Math.min(progressMs + elapsed, durationMs)`
where `elapsed = now - serverTimestamp`; otherwise the interpolation
interval does not run and the progress stays at the server value. -/
def interpolatedProgress (serverProgressMs durationMs : Int) (isPlaying : Bool)
    (serverTimestamp nowMs : Int) : Int :=
  if isPlaying = false ∨ durationMs ≤ 0 then serverProgressMs
  else min (serverProgressMs + (nowMs - serverTimestamp)) durationMs

/-- The clamp function in the specification's words:
`clamp(x, lo, hi) = max(lo, min(x, hi))`. -/
def specClamp (x lo hi : Int) : Int := max lo (min x hi)

/-- The process-wide mutable state of `server.js`: `latestHostUpdate`,
`lastTrackUri` and `lastIsPlaying` (all initially `null`). -/
structure ServerState where
  latestHostUpdate : Option HostUpdate
  lastTrackUri : Option String
  lastIsPlaying : Option Bool
deriving Repr, DecidableEq

/-- A socket message emitted by the server: `sync_response` is a unicast to
one socket (`socket.emit`), `host_update` a broadcast to every connected
client (`io.emit`). -/
inductive ServerMsg where
  | syncResponse (update : HostUpdate)
  | hostUpdateBroadcast (update : HostUpdate)
deriving Repr, DecidableEq

/-- The body of `io.on("connection", ...)` in `server.js` lines 110–116 that
concerns a newly connected socket: if `latestHostUpdate` is non-null it is
sent to that socket alone as a `sync_response`; otherwise nothing is sent. -/
def connectionHandler (st : ServerState) : List ServerMsg :=
  match st.latestHostUpdate with
  | some u => [ServerMsg.syncResponse u]
  | none => []

/-- The `request_sync` handler in `server.js` lines 128–136: if
`latestHostUpdate` is non-null, emit it verbatim to the requesting socket as
a `sync_response`; otherwise only log.  No state is touched either way. -/
def requestSyncHandler (st : ServerState) : ServerState × List ServerMsg :=
  match st.latestHostUpdate with
  | some u => (st, [ServerMsg.syncResponse u])
  | none => (st, [])

/-- The `disconnect` handler in `server.js` lines 138–140: it only logs the
socket id; no message is emitted and no state changes. -/
def disconnectHandler (st : ServerState) : ServerState × List ServerMsg :=
  (st, [])

/-- The host client's `handleSyncRequest` from `useHostSync.ts` lines
117–136: when a `currentState` exists, emit a `sync_response` carrying a
copy of it whose `timestamp` is rewritten to now. -/
def handleSyncRequest (currentState : Option HostUpdate) (nowMs : Int) :
    List ServerMsg :=
  match currentState with
  | some s => [ServerMsg.syncResponse { s with timestamp := nowMs }]
  | none => []

/-- The track object of a successful `/api/host/playback` response as read
by `pollHostPlayback` in `server.js`. -/
structure TrackData where
  uri : String
  name : String
  artists : String
  album : String
  albumImage : String
  durationMs : Int
deriving Repr, DecidableEq

/-- The outcome of one poll of `/api/host/playback` as branched on by
`pollHostPlayback`: a non-ok response (e.g. 401), an ok response whose
`data.track` is null, or an ok response carrying a track with the playing
flag and progress. -/
inductive PollResult where
  | httpError (status : Nat)
  | okNoTrack
  | okTrack (track : TrackData) (playing : Bool) (progressMs : Int)
deriving Repr, DecidableEq

/-- The `update` object built by `pollHostPlayback` in `server.js` lines
65–75 from a track-carrying poll response, with `timestamp: Date.now()`. -/
def pollUpdate (track : TrackData) (playing : Bool) (progressMs nowMs : Int) :
    HostUpdate :=
  ⟨some track.uri, some track.name, some track.artists, some track.album,
    some track.albumImage, playing, progressMs, track.durationMs, nowMs⟩

/-- `pollHostPlayback` from `server.js` lines 59–93, one tick: a non-ok
response or an ok response with `!data.track` returns early leaving all
state unchanged and emitting nothing; otherwise the built update overwrites
`latestHostUpdate`, `lastTrackUri`, `lastIsPlaying` unconditionally and is
broadcast via `io.emit` exactly when `io.engine.clientsCount > 0`. -/
def pollHostPlayback (st : ServerState) (res : PollResult) (nowMs : Int)
    (connectedClients : Nat) : ServerState × List ServerMsg :=
  match res with
  | .httpError _ => (st, [])
  | .okNoTrack => (st, [])
  | .okTrack track playing progressMs =>
    if connectedClients > 0 then
      (⟨some (pollUpdate track playing progressMs nowMs), some track.uri,
          some playing⟩,
        [ServerMsg.hostUpdateBroadcast (pollUpdate track playing progressMs nowMs)])
    else
      (⟨some (pollUpdate track playing progressMs nowMs), some track.uri,
          some playing⟩, [])

/-- Modelled from the spec: the claim's decision rule for a corrective seek
on a same-track snapshot — drift above `TOLERANCE_MS`, more than
`COOLDOWN_MS` elapsed since the last corrective action, and the snapshot
playing.  No cooldown constant exists anywhere in the source; `3000` ms is
the smallest value of the spec's stated `COOLDOWN_MS` range (3000–15000 ms),
so any admissible cooldown is at least this one. -/
def COOLDOWN_MS : Int := 3000

/-- Modelled from the spec: whether the claimed Reconciler would issue a
position-correcting seek, given the measured drift, the time elapsed since
the last corrective action, and the play flag. -/
def claimSeekDecision (driftMs elapsedSinceSyncMs : Int) (isPlaying : Bool) :
    Bool :=
  decide (driftMs > SYNC_TOLERANCE_MS) &&
    decide (elapsedSinceSyncMs > COOLDOWN_MS) && isPlaying

/-- The display state left behind by a stream of snapshots: the last element
when the stream is non-empty, the prior display state otherwise. -/
def lastSnapshot (d : Option HostUpdate) : List HostUpdate → Option HostUpdate
  | [] => d
  | u :: rest => lastSnapshot (some u) rest

/-- A listener context in which every sync precondition holds. -/
def ctxActive (ctx : ListenerCtx) : Prop :=
  ctx.isListener = true ∧ ctx.deviceId ≠ none ∧ ctx.accessToken ≠ none ∧
    ctx.isSyncEnabled = true

instance (ctx : ListenerCtx) : Decidable (ctxActive ctx) := by
  unfold ctxActive; infer_instance

/-- A fully enabled listener context used for concrete runs. -/
def ctxOn : ListenerCtx := ⟨true, some "device1", some "token1", true⟩

/-- The enabled context with sync toggled off by the user. -/
def ctxDisabled : ListenerCtx := ⟨true, some "device1", some "token1", false⟩

/-- A fresh listener state: no track synced yet, position ref `0`, no
display state. -/
def st0 : ListenerState := ⟨⟨none, 0⟩, none⟩

/-- First snapshot of a drift-free playing stream of track `a`: position 0
captured at wall-clock 0. -/
def streamU0 : HostUpdate :=
  ⟨some "spotify:track:a", some "TrackA", some "ArtistA", some "AlbumA",
    some "imgA", true, 0, 200000, 0⟩

/-- Second snapshot, 3000 ms later, position advanced by exactly the
wall-clock delta (no real drift). -/
def streamU1 : HostUpdate := { streamU0 with progressMs := 3000, timestamp := 3000 }

/-- Third snapshot, 3000 ms later again, still drift-free. -/
def streamU2 : HostUpdate := { streamU0 with progressMs := 6000, timestamp := 6000 }

/-- A same-track playing snapshot whose position is 6000 ms away from the
last synced position, captured at wall-clock 0 — i.e. arriving 0 ms after
the previous corrective action. -/
def jumpSnap : HostUpdate :=
  ⟨some "spotify:track:a", some "TrackA", some "ArtistA", some "AlbumA",
    some "imgA", true, 6000, 200000, 0⟩

/-- A snapshot of a different track `b` with the play flag off. -/
def pausedNewTrack : HostUpdate :=
  ⟨some "spotify:track:b", some "TrackB", some "ArtistB", some "AlbumB",
    some "imgB", false, 10000, 180000, 0⟩

/-- A playing sample snapshot for estimator evaluation. -/
def sampleSnap : HostUpdate :=
  ⟨some "spotify:track:a", some "TrackA", some "ArtistA", some "AlbumA",
    some "imgA", true, 5000, 200000, 1000⟩

/-- A paused sample snapshot for estimator evaluation. -/
def samplePaused : HostUpdate :=
  ⟨some "spotify:track:a", some "TrackA", some "ArtistA", some "AlbumA",
    some "imgA", false, 4000, 200000, 1000⟩

/-- A server state holding a latest snapshot captured at wall-clock 1000. -/
def staleLatest : HostUpdate :=
  ⟨some "spotify:track:a", some "TrackA", some "ArtistA", some "AlbumA",
    some "imgA", true, 42000, 200000, 1000⟩

/-- The server state after `staleLatest` was recorded. -/
def serverSt1 : ServerState := ⟨some staleLatest, some "spotify:track:a", some true⟩

theorem syncPlayback_guard_false (ctx : ListenerCtx) (h : ctxActive ctx) :
    ¬(ctx.isListener = false ∨ ctx.deviceId = none ∨ ctx.accessToken = none ∨
      ctx.isSyncEnabled = false) := by
  obtain ⟨h1, h2, h3, h4⟩ := h
  simp [h1, h2, h3, h4]

theorem syncPlayback_paused (ctx : ListenerCtx) (refs : SyncRefs) (u : HostUpdate)
    (ok : Bool) (h : ctxActive ctx) (hplay : u.isPlaying = false) :
    syncPlayback ctx refs u ok =
      (⟨u.trackUri, refs.lastSyncedPosition⟩, [SpotifyCmd.pause]) := by
  unfold syncPlayback
  rw [if_neg (syncPlayback_guard_false ctx h), if_pos hplay]

theorem syncPlayback_track_change (ctx : ListenerCtx) (refs : SyncRefs)
    (u : HostUpdate) (uri : String) (h : ctxActive ctx)
    (huri : u.trackUri = some uri) (hplay : u.isPlaying = true)
    (hchanged : refs.lastSyncedTrack ≠ some uri) :
    syncPlayback ctx refs u true =
      (⟨some uri, u.progressMs⟩, [SpotifyCmd.play uri u.progressMs]) := by
  unfold syncPlayback
  rw [if_neg (syncPlayback_guard_false ctx h), if_neg (by simp [hplay])]
  simp only [huri]
  rw [if_pos (Or.inl hchanged)]
  simp

theorem syncPlayback_drift_seek (ctx : ListenerCtx) (refs : SyncRefs)
    (u : HostUpdate) (uri : String) (h : ctxActive ctx)
    (huri : u.trackUri = some uri) (hplay : u.isPlaying = true)
    (hdrift : |u.progressMs - refs.lastSyncedPosition| > SYNC_TOLERANCE_MS) :
    syncPlayback ctx refs u true =
      (⟨some uri, u.progressMs⟩, [SpotifyCmd.play uri u.progressMs]) := by
  unfold syncPlayback
  rw [if_neg (syncPlayback_guard_false ctx h), if_neg (by simp [hplay])]
  simp only [huri]
  rw [if_pos (Or.inr hdrift)]
  simp

theorem syncPlayback_steady (ctx : ListenerCtx) (refs : SyncRefs) (u : HostUpdate)
    (ok : Bool) (uri : String) (huri : u.trackUri = some uri)
    (hplay : u.isPlaying = true) (hsame : refs.lastSyncedTrack = some uri)
    (hdrift : |u.progressMs - refs.lastSyncedPosition| ≤ SYNC_TOLERANCE_MS) :
    syncPlayback ctx refs u ok = (refs, []) := by
  unfold syncPlayback
  by_cases hg : (ctx.isListener = false ∨ ctx.deviceId = none ∨
      ctx.accessToken = none ∨ ctx.isSyncEnabled = false)
  · rw [if_pos hg]
  · rw [if_neg hg, if_neg (by simp [hplay])]
    simp only [huri]
    rw [if_neg ?_]
    push_neg
    exact ⟨by rw [hsame], hdrift⟩

theorem handleHostUpdate_steady (ctx : ListenerCtx) (st : ListenerState)
    (u : HostUpdate) (ok : Bool) (uri : String) (huri : u.trackUri = some uri)
    (hplay : u.isPlaying = true) (hsame : st.refs.lastSyncedTrack = some uri)
    (hdrift : |u.progressMs - st.refs.lastSyncedPosition| ≤ SYNC_TOLERANCE_MS) :
    handleHostUpdate ctx st u ok = (⟨st.refs, some u⟩, []) := by
  unfold handleHostUpdate
  rw [syncPlayback_steady ctx st.refs u ok uri huri hplay hsame hdrift]
  split <;> rfl

theorem processUpdates_steady (ctx : ListenerCtx) (uri : String) (p0 : Int)
    (hs : Option HostUpdate) (rest : List HostUpdate)
    (hrest : ∀ u ∈ rest, u.trackUri = some uri ∧ u.isPlaying = true ∧
      |u.progressMs - p0| ≤ SYNC_TOLERANCE_MS) :
    (processUpdates ctx ⟨⟨some uri, p0⟩, hs⟩ rest).2 = [] ∧
      (processUpdates ctx ⟨⟨some uri, p0⟩, hs⟩ rest).1.refs = ⟨some uri, p0⟩ := by
  induction rest generalizing hs with
  | nil => exact ⟨rfl, rfl⟩
  | cons u rest ih =>
    obtain ⟨huri, hplay, hdrift⟩ := hrest u (List.mem_cons_self u rest)
    unfold processUpdates
    rw [handleHostUpdate_steady ctx ⟨⟨some uri, p0⟩, hs⟩ u true uri huri hplay rfl hdrift]
    exact ih (some u) (fun v hv => hrest v (List.mem_cons_of_mem u hv))

theorem handleHostUpdate_disabled (ctx : ListenerCtx) (st : ListenerState)
    (u : HostUpdate) (ok : Bool) (h : ctx.isSyncEnabled = false) :
    handleHostUpdate ctx st u ok = (⟨st.refs, some u⟩, []) := by
  unfold handleHostUpdate syncPlayback
  rw [if_pos (Or.inr (Or.inr (Or.inr h)))]
  split <;> rfl

/-- C2: for every Snapshot and wall-clock time, the latency-compensated
position is the raw `progressMs` when the snapshot is paused, and
`clamp(progressMs + (nowMs - capturedAtMs), 0, durationMs)` when it is
playing; in particular at delay `D ≥ 0` after capture the play-branch
estimate is `clamp(progressMs + D, 0, durationMs)`, and the display
interpolation of `useInterpolatedProgress` agrees on nonnegative positions
and positive durations, while a paused snapshot leaves it unchanged. -/
theorem estimator_matches_clamp_spec (u : HostUpdate) (nowMs : Int) :
    (u.isPlaying = true →
      playPositionSent u nowMs =
        specClamp (u.progressMs + (nowMs - u.timestamp)) 0 u.durationMs) ∧
    (u.isPlaying = false → expectedPosition u nowMs = u.progressMs) ∧
    (u.isPlaying = false →
      interpolatedProgress u.progressMs u.durationMs u.isPlaying u.timestamp nowMs
        = u.progressMs) ∧
    (∀ D : Int, 0 ≤ D → u.isPlaying = true →
      playPositionSent u (u.timestamp + D) =
        specClamp (u.progressMs + D) 0 u.durationMs) ∧
    (∀ D : Int, 0 ≤ D → u.isPlaying = true → 0 ≤ u.progressMs →
        0 < u.durationMs →
      interpolatedProgress u.progressMs u.durationMs u.isPlaying u.timestamp
          (u.timestamp + D) =
        specClamp (u.progressMs + D) 0 u.durationMs) := by
  refine ⟨?_, ?_, ?_, ?_, ?_⟩
  · intro h
    simp [playPositionSent, clampedPosition, expectedPosition, timeSinceUpdate,
      specClamp, h, max_comm]
  · intro h
    simp [expectedPosition, h]
  · intro h
    simp [interpolatedProgress, h]
  · intro D _ h
    simp [playPositionSent, clampedPosition, expectedPosition, timeSinceUpdate,
      specClamp, h, max_comm]
  · intro D hD h hp hd
    rw [interpolatedProgress, if_neg (by simp [h]; omega)]
    rw [specClamp, max_eq_right (by omega)]
    congr 1
    omega

/-- Witness for C2 at a concrete playing snapshot (position 5000 captured at
1000, evaluated at 7000) and a concrete paused snapshot. -/
theorem estimator_matches_clamp_spec_witness :
    playPositionSent sampleSnap 7000 =
        specClamp (5000 + (7000 - 1000)) 0 200000 ∧
      expectedPosition samplePaused 7000 = 4000 ∧
      interpolatedProgress 5000 200000 true 1000 (1000 + 6000) =
        specClamp (5000 + 6000) 0 200000 :=
  ⟨(estimator_matches_clamp_spec sampleSnap 7000).1 rfl,
    (estimator_matches_clamp_spec samplePaused 7000).2.1 rfl,
    (estimator_matches_clamp_spec sampleSnap 7000).2.2.2.2 6000 (by decide) rfl
      (by decide) (by decide)⟩

/-- C7: a session that connects while `latestHostUpdate` holds a snapshot
receives exactly that snapshot, exactly once, as a unicast `sync_response`
inside the connection handler itself — before any future broadcast tick. -/
theorem connection_delivers_latest_once (st : ServerState) (u : HostUpdate)
    (h : st.latestHostUpdate = some u) :
    connectionHandler st = [ServerMsg.syncResponse u] := by
  unfold connectionHandler
  rw [h]

/-- Witness for C7 at the concrete server state holding `staleLatest`. -/
theorem connection_delivers_latest_once_witness :
    connectionHandler serverSt1 = [ServerMsg.syncResponse staleLatest] :=
  connection_delivers_latest_once serverSt1 staleLatest rfl

/-- C8 (code bug): the server's `disconnect` handler only logs — it emits no
message at all and changes no state, so no `listener_count` metric is ever
published on disconnect, although the repository's README documents
`listener_count` as a server-to-client event and the client component
subscribes to it. -/
theorem disconnect_handler_emits_nothing (st : ServerState) :
    disconnectHandler st = (st, []) := rfl

/-- C10: a `request_sync` that arrives before any snapshot has been recorded
produces no `sync_response`, no error message, and leaves the server state
(`latestHostUpdate`, `lastTrackUri`, `lastIsPlaying`) unchanged. -/
theorem request_sync_before_first_snapshot_silent (st : ServerState)
    (h : st.latestHostUpdate = none) :
    requestSyncHandler st = (st, []) := by
  unfold requestSyncHandler
  rw [h]

/-- Witness for C10 at the initial server state (all fields null). -/
theorem request_sync_before_first_snapshot_silent_witness :
    requestSyncHandler ⟨none, none, none⟩ = (⟨none, none, none⟩, []) :=
  request_sync_before_first_snapshot_silent ⟨none, none, none⟩ rfl

/-- C5: with sync disabled, a run over any sequence of incoming snapshots
issues no playback command at all, while the display state still follows
the stream, ending at its last snapshot. -/
theorem disabled_sync_display_only (ctx : ListenerCtx) (st : ListenerState)
    (updates : List HostUpdate) (h : ctx.isSyncEnabled = false) :
    (processUpdates ctx st updates).2 = [] ∧
      (processUpdates ctx st updates).1.hostState =
        lastSnapshot st.hostState updates := by
  induction updates generalizing st with
  | nil => exact ⟨rfl, rfl⟩
  | cons u rest ih =>
    unfold processUpdates
    rw [handleHostUpdate_disabled ctx st u true h]
    exact ⟨(ih ⟨st.refs, some u⟩).1, (ih ⟨st.refs, some u⟩).2⟩

/-- Witness for C5 at the disabled context over a concrete two-snapshot
stream starting from the fresh state. -/
theorem disabled_sync_display_only_witness :
    (processUpdates ctxDisabled st0 [streamU0, streamU1]).2 = [] ∧
      (processUpdates ctxDisabled st0 [streamU0, streamU1]).1.hostState =
        lastSnapshot none [streamU0, streamU1] :=
  disabled_sync_display_only ctxDisabled st0 [streamU0, streamU1] rfl

/-- C1 counterexample: the three-snapshot stream `[streamU0, streamU1,
streamU2]` has one fixed `trackUri`, `isPlaying = true` throughout, and each
position equals the previous plus the wall-clock delta between captures (no
real drift) — yet the reconciler run issues two corrective play commands,
the second a further seek, refuting "at most one corrective command and
zero further seeks".  (Drift is measured against `lastSyncedPosition`, which
stays put while the host advances, so it crosses the 5000 ms tolerance by
the third snapshot.) -/
theorem realtime_stream_two_seeks_cex :
    (streamU0.trackUri = streamU1.trackUri ∧ streamU1.trackUri = streamU2.trackUri) ∧
      (streamU0.isPlaying = true ∧ streamU1.isPlaying = true ∧
        streamU2.isPlaying = true) ∧
      (streamU1.progressMs =
          streamU0.progressMs + (streamU1.timestamp - streamU0.timestamp) ∧
        streamU2.progressMs =
          streamU1.progressMs + (streamU2.timestamp - streamU1.timestamp)) ∧
      (processUpdates ctxOn st0 [streamU0, streamU1, streamU2]).2 =
        [SpotifyCmd.play "spotify:track:a" 0,
          SpotifyCmd.play "spotify:track:a" 6000] := by
  refine ⟨⟨rfl, rfl⟩, ⟨rfl, rfl, rfl⟩, ⟨by decide, by decide⟩, ?_⟩
  decide

/-- C1 amended: for a same-track always-playing stream, the reconciler
issues exactly one corrective play command — the initial sync — provided
every later snapshot's position stays within `SYNC_TOLERANCE_MS` of the
first snapshot's position (the code compares raw positions against the last
synced position, so a longer real-time stream does trigger further seeks,
as the counterexample shows). -/
theorem single_sync_within_tolerance (ctx : ListenerCtx) (refs : SyncRefs)
    (hs : Option HostUpdate) (uri : String) (u0 : HostUpdate)
    (rest : List HostUpdate) (h : ctxActive ctx) (h0uri : u0.trackUri = some uri)
    (h0play : u0.isPlaying = true) (hnew : refs.lastSyncedTrack ≠ some uri)
    (hrest : ∀ u ∈ rest, u.trackUri = some uri ∧ u.isPlaying = true ∧
      |u.progressMs - u0.progressMs| ≤ SYNC_TOLERANCE_MS) :
    (processUpdates ctx ⟨refs, hs⟩ (u0 :: rest)).2 =
      [SpotifyCmd.play uri u0.progressMs] := by
  unfold processUpdates
  have hguard : ctx.isListener = true ∧ ctx.deviceId ≠ none ∧
      ctx.accessToken ≠ none := ⟨h.1, h.2.1, h.2.2.1⟩
  unfold handleHostUpdate
  rw [if_pos hguard, syncPlayback_track_change ctx refs u0 uri h h0uri h0play hnew]
  simp only []
  rw [(processUpdates_steady ctx uri u0.progressMs (some u0) rest hrest).1,
    List.append_nil]

/-- Witness for C1's amended theorem: a concrete two-snapshot stream whose
second position is 3000 ms past the first (within the 5000 ms tolerance)
issues exactly the one initial play command. -/
theorem single_sync_within_tolerance_witness :
    (processUpdates ctxOn ⟨⟨none, 0⟩, none⟩ [streamU0, streamU1]).2 =
      [SpotifyCmd.play "spotify:track:a" 0] :=
  single_sync_within_tolerance ctxOn ⟨none, 0⟩ none "spotify:track:a" streamU0
    [streamU1] (by decide) rfl rfl (by decide) (by decide)

/-- C3 counterexample: with track `a` already applied at synced position 0,
the snapshot `jumpSnap` (same track, playing, position 6000) arrives 0 ms
after the previous corrective action; the code issues the seek immediately,
although the claimed rule — drift above tolerance AND more than
`COOLDOWN_MS` elapsed since the last correction — forbids it (no cooldown
exists anywhere in the source, and the issued seek targets the raw
`progressMs`, not an estimator-adjusted position). -/
theorem seek_ignores_cooldown_cex :
    (syncPlayback ctxOn ⟨some "spotify:track:a", 0⟩ jumpSnap true).2 =
        [SpotifyCmd.play "spotify:track:a" 6000] ∧
      claimSeekDecision 6000 0 true = false := by
  constructor
  · decide
  · decide

/-- C3 amended: for a same-track playing snapshot in an active context, a
position-correcting seek is issued if and only if
`|progressMs - lastSyncedPosition|` exceeds `SYNC_TOLERANCE_MS` — there is
no cooldown condition — and the issued seek targets the snapshot's raw
`progressMs`, updating `lastSyncedPosition` to it (no `lastSyncAtMs`
exists in the code). -/
theorem seek_iff_drift (ctx : ListenerCtx) (refs : SyncRefs) (u : HostUpdate)
    (uri : String) (h : ctxActive ctx) (huri : u.trackUri = some uri)
    (hplay : u.isPlaying = true) (hsame : refs.lastSyncedTrack = some uri) :
    ((syncPlayback ctx refs u true).2 = [SpotifyCmd.play uri u.progressMs] ↔
        |u.progressMs - refs.lastSyncedPosition| > SYNC_TOLERANCE_MS) ∧
      ((syncPlayback ctx refs u true).2 = [] ↔
        |u.progressMs - refs.lastSyncedPosition| ≤ SYNC_TOLERANCE_MS) ∧
      (|u.progressMs - refs.lastSyncedPosition| > SYNC_TOLERANCE_MS →
        (syncPlayback ctx refs u true).1 = ⟨some uri, u.progressMs⟩) := by
  by_cases hd : |u.progressMs - refs.lastSyncedPosition| > SYNC_TOLERANCE_MS
  · rw [syncPlayback_drift_seek ctx refs u uri h huri hplay hd]
    exact ⟨⟨fun _ => hd, fun _ => rfl⟩,
      ⟨fun hc => absurd hc (by simp), fun hc => absurd hd (not_lt.mpr hc)⟩,
      fun _ => rfl⟩
  · rw [syncPlayback_steady ctx refs u true uri huri hplay hsame (not_lt.mp hd)]
    exact ⟨⟨fun hc => absurd hc (by simp), fun hc => absurd hc hd⟩,
      ⟨fun _ => not_lt.mp hd, fun _ => rfl⟩, fun hc => absurd hc hd⟩

/-- Witness for C3's amended theorem at a concrete in-tolerance snapshot
(`streamU1`, drift 3000 from synced position 0): no seek is issued. -/
theorem seek_iff_drift_witness :
    (syncPlayback ctxOn ⟨some "spotify:track:a", 0⟩ streamU1 true).2 = [] :=
  (seek_iff_drift ctxOn ⟨some "spotify:track:a", 0⟩ streamU1 "spotify:track:a"
      (by decide) rfl rfl rfl).2.1.mpr (by decide)

/-- C4 counterexample: with track `a` applied, the snapshot `pausedNewTrack`
(a NEW track `b`, `isPlaying = false`) produces only a pause command — no
command loading track `b` and no position is sent — refuting "always issue
a load at the expected position then set play/pause, including when
`isPlaying` is false". -/
theorem paused_track_change_no_load_cex :
    syncPlayback ctxOn ⟨some "spotify:track:a", 0⟩ pausedNewTrack true =
      (⟨some "spotify:track:b", 0⟩, [SpotifyCmd.pause]) := by
  decide

/-- C4 amended: a snapshot whose `trackUri` differs from the last synced
track is handled with no cooldown of any kind, but the play flag decides
what is issued: when playing, a play command loading the new track at the
snapshot's raw `progressMs` (not an estimator-adjusted position); when
paused, only a pause command, which still records the new track as last
synced. -/
theorem track_change_load_or_pause (ctx : ListenerCtx) (refs : SyncRefs)
    (u : HostUpdate) (uri : String) (h : ctxActive ctx)
    (huri : u.trackUri = some uri) (hchanged : refs.lastSyncedTrack ≠ some uri) :
    (u.isPlaying = true →
      syncPlayback ctx refs u true =
        (⟨some uri, u.progressMs⟩, [SpotifyCmd.play uri u.progressMs])) ∧
    (u.isPlaying = false →
      syncPlayback ctx refs u true =
        (⟨some uri, refs.lastSyncedPosition⟩, [SpotifyCmd.pause])) := by
  constructor
  · intro hplay
    exact syncPlayback_track_change ctx refs u uri h huri hplay hchanged
  · intro hplay
    rw [syncPlayback_paused ctx refs u true h hplay, huri]

/-- Witness for C4's amended theorem: a playing snapshot of new track `a`
from the fresh refs issues the load-and-play command at its raw position. -/
theorem track_change_load_or_pause_witness :
    syncPlayback ctxOn ⟨none, 0⟩ streamU0 true =
      (⟨some "spotify:track:a", 0⟩, [SpotifyCmd.play "spotify:track:a" 0]) :=
  (track_change_load_or_pause ctxOn ⟨none, 0⟩ streamU0 "spotify:track:a"
      (by decide) rfl (by decide)).1 rfl

/-- C6 counterexample: a `request_sync` served by the server at wall-clock
5000 replays `staleLatest` verbatim — the emitted `sync_response` still
carries the original capture timestamp 1000, not the sending time —
refuting "every sync_response sent in reply to a request_sync rewrites
`capturedAtMs` to the current time" (the server handler does not even read
the clock). -/
theorem request_sync_timestamp_not_refreshed_cex :
    (requestSyncHandler serverSt1).2 = [ServerMsg.syncResponse staleLatest] ∧
      staleLatest.timestamp = 1000 ∧ (1000 : Int) ≠ 5000 := by
  refine ⟨rfl, rfl, by decide⟩

/-- C6 amended: the server's `request_sync` handler replays the stored
latest snapshot verbatim, timestamp unchanged and state untouched; only the
host client's `request_sync` handler (`handleSyncRequest` in
`useHostSync.ts`) responds with a copy whose timestamp is rewritten to the
current time. -/
theorem request_sync_verbatim_host_refreshes (st : ServerState)
    (u s : HostUpdate) (nowMs : Int) (h : st.latestHostUpdate = some u) :
    (requestSyncHandler st).2 = [ServerMsg.syncResponse u] ∧
      (requestSyncHandler st).1 = st ∧
      handleSyncRequest (some s) nowMs =
        [ServerMsg.syncResponse { s with timestamp := nowMs }] := by
  unfold requestSyncHandler handleSyncRequest
  rw [h]
  exact ⟨rfl, rfl, rfl⟩

/-- Witness for C6's amended theorem at the concrete stored snapshot
`staleLatest` and sending time 5000. -/
theorem request_sync_verbatim_host_refreshes_witness :
    (requestSyncHandler serverSt1).2 = [ServerMsg.syncResponse staleLatest] ∧
      (requestSyncHandler serverSt1).1 = serverSt1 ∧
      handleSyncRequest (some staleLatest) 5000 =
        [ServerMsg.syncResponse { staleLatest with timestamp := 5000 }] :=
  request_sync_verbatim_host_refreshes serverSt1 staleLatest staleLatest 5000 rfl

/-- C9 counterexample: a successful poll tick whose response reports nothing
playing (`data.track` null) leaves the stored latest snapshot — here still
`staleLatest` — and all other server state unchanged, and broadcasts
nothing even with 3 connected sessions, refuting "overwrites the stored
latest Snapshot unconditionally, even when the upstream reports nothing
playing". -/
theorem poll_no_track_state_unchanged_cex :
    pollHostPlayback serverSt1 PollResult.okNoTrack 9000 3 = (serverSt1, []) ∧
      serverSt1.latestHostUpdate = some staleLatest := ⟨rfl, rfl⟩

/-- C9 amended: on a successful poll tick whose response carries a track,
the poller overwrites `latestHostUpdate`, `lastTrackUri` and `lastIsPlaying`
unconditionally — in particular with zero connected sessions — and
broadcasts the new snapshot to all sessions if and only if at least one
session is connected; a successful tick reporting nothing playing returns
early, changing no state and broadcasting nothing. -/
theorem poll_update_broadcast_split (st : ServerState) (track : TrackData)
    (playing : Bool) (progressMs nowMs : Int) (connectedClients : Nat) :
    (pollHostPlayback st (PollResult.okTrack track playing progressMs) nowMs
          connectedClients).1 =
        ⟨some (pollUpdate track playing progressMs nowMs), some track.uri,
          some playing⟩ ∧
      (pollHostPlayback st (PollResult.okTrack track playing progressMs) nowMs
          connectedClients).2 =
        (if connectedClients > 0 then
          [ServerMsg.hostUpdateBroadcast (pollUpdate track playing progressMs nowMs)]
        else []) ∧
      pollHostPlayback st PollResult.okNoTrack nowMs connectedClients =
        (st, []) := by
  by_cases hc : connectedClients > 0
  · simp [pollHostPlayback, hc]
  · simp [pollHostPlayback, hc]

end ListenTogether
